import Mathlib

/-!
Shallow embedding of `tx.go` (Whisker17/tx): a command-line tool that builds,
signs and optionally submits one Ripple payment transaction.

The external cryptographic/ledger library (`rubblelabs/ripple` packages
`crypto`, `data`, `websockets`) and the cli help renderer are modelled as an
abstract record of functions (`Lib`); the repository's own glue logic is
translated function by function from `src/tx.go`.

Process effects are modelled by `Proc`: the list of items written to standard
output together with either a normal result or an `os.Exit` code.
-/

/-- One item written to standard output: either text (`fmt.Println` /
`fmt.Printf`) or raw bytes (`os.Stdout.Write`). -/
inductive OutItem where
  | text : String → OutItem
  | bin : List Nat → OutItem
deriving Repr, DecidableEq

/-- A terminating computation: the output it writes, and either a value or the
exit code it terminated with (`os.Exit`). -/
abbrev Proc (α : Type) := List OutItem × Except Nat α

/-- Sequencing of `Proc` computations: an exit aborts the rest, output
accumulates in order. -/
def bindP {α β : Type} (x : Proc α) (f : α → Proc β) : Proc β :=
  match x with
  | (o, Except.error c) => (o, Except.error c)
  | (o, Except.ok a) => (o ++ (f a).1, (f a).2)

/-- A computation with no output that returns a value. -/
def pureP {α : Type} (a : α) : Proc α := ([], Except.ok a)

/-- `fmt.Println`: writes the string followed by a newline. -/
def println (s : String) : Proc Unit := ([OutItem.text (s ++ "\n")], Except.ok ())

/-- `fmt.Printf` with an already-formatted string. -/
def printfP (s : String) : Proc Unit := ([OutItem.text s], Except.ok ())

/-- `os.Stdout.Write`: raw bytes to standard output. -/
def writeStdout (b : List Nat) : Proc Unit := ([OutItem.bin b], Except.ok ())

/-- `os.Exit(c)`. -/
def exitProc {α : Type} (c : Nat) : Proc α := ([], Except.error c)

/-- `checkErr` from tx.go lines 14-19: on a non-nil error, print the error
message (`fmt.Println`) and `os.Exit(1)`; otherwise pass the value through. -/
def checkErr {α : Type} : Except String α → Proc α
  | Except.error e => ([OutItem.text (e ++ "\n")], Except.error 1)
  | Except.ok a => ([], Except.ok a)

/-- Opaque handle for `crypto.RootDeterministicKey`. -/
abbrev RootKey := Nat

/-- Opaque handle for a derived private account key. -/
abbrev AccountKey := Nat

/-- Opaque handle for a derived public account key payload. -/
abbrev PubKeyVal := Nat

/-- Opaque handle for a `data.Account` payload (20-byte account identifier). -/
abbrev AccountId := Nat

/-- Opaque handle for a parsed `data.Amount`. -/
abbrev AmountVal := Nat

/-- Opaque handle for a parsed `data.Path`. -/
abbrev PathVal := Nat

/-- Opaque handle for a `data.Value` (fee). The Go zero value is modelled as 0. -/
abbrev ValueVal := Nat

/-- Opaque handle for a `websockets.Remote` connection. -/
abbrev Remote := Nat

/-- `data.PAYMENT` transaction type constant. -/
def PAYMENT : Nat := 0

/-- `data.TxNoDirectRipple` payment flag bit. -/
def TxNoDirectRipple : Nat := 0x00010000

/-- `data.TxPartialPayment` payment flag bit. -/
def TxPartialPayment : Nat := 0x00020000

/-- `data.TxLimitQuality` payment flag bit. -/
def TxLimitQuality : Nat := 0x00040000

/-- The fields of `data.TxBase` used by tx.go, with Go zero values as
defaults (pointer fields are `Option`, nil is `none`). -/
structure TxBase where
  TransactionType : Nat := 0
  Flags : Option Nat := none
  Account : AccountId := 0
  Sequence : Nat := 0
  Fee : ValueVal := 0
  SigningPubKey : Option PubKeyVal := none
  TxnSignature : Option (List Nat) := none
  LastLedgerSequence : Option Nat := none
deriving Repr, DecidableEq

/-- The fields of `data.Payment` used by tx.go: the embedded `TxBase` plus the
payment-specific fields. -/
structure Payment where
  base : TxBase := {}
  Destination : AccountId := 0
  Amount : AmountVal := 0
  SendMax : Option AmountVal := none
  Paths : Option (List PathVal) := none
  DestinationTag : Option Nat := none
  InvoiceID : Option (List Nat) := none
deriving Repr, DecidableEq

/-- The engine result returned by `websockets.Remote.Submit`: result code and
human-readable message. -/
structure SubmitResult where
  engineResult : String
  engineResultMessage : String
deriving Repr, DecidableEq

/-- The external collaborator library (rubblelabs/ripple `crypto`, `data`,
`websockets`, plus the cli help renderer), as an abstract record of fallible
functions with the signatures tx.go consumes. -/
structure Lib where
  newRippleHashCheck : String → Except String (List Nat)
  generateRootDeterministicKey : List Nat → Except String RootKey
  generateAccountKey : RootKey → Int → Except String AccountKey
  generateAccountId : RootKey → Int → Except String AccountId
  publicAccountKey : AccountKey → Except String PubKeyVal
  newAccountFromAddress : String → Except String AccountId
  newAmount : String → Except String AmountVal
  newPath : String → Except String PathVal
  newNativeValue : Int → Except String ValueVal
  signTx : Payment → AccountKey → Except String (List Nat)
  raw : Payment → Except String (List Nat × List Nat)
  jsonMarshal : Payment → Except String String
  newRemote : String → Except String Remote
  submit : Remote → Payment → Except String SubmitResult
  appHelp : String

/-- The global flags of the app (tx.go lines 167-175), typed as the cli
library delivers them: `GlobalString` / `GlobalInt` / `GlobalBool`. -/
structure GlobalFlags where
  Seed : String
  Fee : Int
  Sequence : Int
  Lastledger : Int
  Submit : Bool
  Binary : Bool
  Json : Bool
deriving Repr, DecidableEq

/-- The `payment` subcommand flags (tx.go lines 183-193). -/
structure PaymentFlags where
  Dest : String
  Amount : String
  Tag : Int
  Invoice : String
  Paths : String
  Sendmax : String
  Nodirect : Bool
  Partial : Bool
  Limit : Bool
deriving Repr, DecidableEq

/-- The default values registered for the global flags in `main`
(tx.go lines 167-175). -/
def defaultGlobalFlags : GlobalFlags :=
  { Seed := "", Fee := 10, Sequence := 0, Lastledger := 0,
    Submit := false, Binary := false, Json := false }

/-- The default values registered for the `payment` subcommand flags in `main`
(tx.go lines 183-193). -/
def defaultPaymentFlags : PaymentFlags :=
  { Dest := "", Amount := "", Tag := 0, Invoice := "", Paths := "",
    Sendmax := "", Nodirect := false, Partial := false, Limit := false }

/-- Go conversion `uint32(i)` from a Go `int`: reduction modulo 2^32. -/
def toUint32 (i : Int) : Nat := (i % 4294967296).toNat

/-- `c.GlobalString("fee")` where "fee" is registered as an `IntFlag`: the cli
library finds the flag and returns its value's decimal string
(Go `strconv.Itoa`), modelled by Lean's decimal `toString` on `Int`. -/
def globalStringFee (g : GlobalFlags) : String := toString g.Fee

/-- `parseSeed` (tx.go lines 21-27): checksum-decode the seed string and
generate the root deterministic key, aborting via `checkErr` on failure. -/
def parseSeed (lib : Lib) (s : String) : Proc RootKey :=
  bindP (checkErr (lib.newRippleHashCheck s)) fun seedPayload =>
  bindP (checkErr (lib.generateRootDeterministicKey seedPayload)) fun key =>
  pureP key

/-- `parseAccount` (tx.go lines 29-33). -/
def parseAccount (lib : Lib) (s : String) : Proc AccountId :=
  checkErr (lib.newAccountFromAddress s)

/-- `parseAmount` (tx.go lines 35-39). -/
def parseAmount (lib : Lib) (s : String) : Proc AmountVal :=
  checkErr (lib.newAmount s)

/-- The loop body of `parsePaths`: parse each comma-separated segment in
order, appending to the path set, aborting on the first failure. -/
def parsePathsAux (lib : Lib) : List String → Proc (List PathVal)
  | [] => pureP []
  | s :: rest =>
    bindP (checkErr (lib.newPath s)) fun path =>
    bindP (parsePathsAux lib rest) fun ps =>
    pureP (path :: ps)

/-- `parsePaths` (tx.go lines 41-49): split on "," and parse each segment. -/
def parsePaths (lib : Lib) (s : String) : Proc (List PathVal) :=
  parsePathsAux lib (s.splitOn ",")

/-- `sign` (tx.go lines 51-77): derive the account key, account id and public
key at derivation index `sequence`, populate the base envelope fields from the
global flags, then compute and attach the signature. Mutation of `tx` is
modelled by returning the updated transaction. -/
def sign (lib : Lib) (key : RootKey) (g : GlobalFlags) (tx : Payment)
    (sequence : Int) : Proc Payment :=
  bindP (checkErr (lib.generateAccountKey key sequence)) fun priv =>
  bindP (checkErr (lib.generateAccountId key sequence)) fun id =>
  bindP (checkErr (lib.publicAccountKey priv)) fun pub =>
  let base1 := { tx.base with Sequence := toUint32 g.Sequence, SigningPubKey := some pub }
  let base2 := if 0 < g.Lastledger then
      { base1 with LastLedgerSequence := some (toUint32 g.Lastledger) }
    else base1
  let base3 := if base2.Flags = none then { base2 with Flags := some 0 } else base2
  let base4 := { base3 with Account := id }
  bindP (if globalStringFee g ≠ "" then
      bindP (checkErr (lib.newNativeValue g.Fee)) fun fee =>
      pureP { base4 with Fee := fee }
    else pureP base4) fun base5 =>
  let tx1 := { tx with base := { base5 with TxnSignature := some [] } }
  bindP (checkErr (lib.signTx tx1 priv)) fun sig =>
  pureP { tx1 with base := { tx1.base with TxnSignature := some sig } }

/-- The fixed websocket endpoint (tx.go line 80). -/
def rippleEndpoint : String := "wss://s-east.ripple.com:443"

/-- `submitTx` (tx.go lines 79-87): connect, submit, print the engine result
code and message, and exit with status 0. The `go r.Run()` background
dispatcher has no observable effect in this model. -/
def submitTx (lib : Lib) (tx : Payment) : Proc Unit :=
  bindP (checkErr (lib.newRemote rippleEndpoint)) fun r =>
  bindP (checkErr (lib.submit r tx)) fun result =>
  bindP (printfP (result.engineResult ++ ": " ++ result.engineResultMessage ++ "\n")) fun _ =>
  exitProc 0

/-- The payment flag mask computed in tx.go lines 112-121: start from a fresh
zero flag and OR in each selected bit in source order. -/
def flagsMask (p : PaymentFlags) : Nat :=
  let f0 : Nat := 0
  let f1 := if p.Nodirect then f0 ||| TxNoDirectRipple else f0
  let f2 := if p.Partial then f1 ||| TxPartialPayment else f1
  if p.Limit then f2 ||| TxLimitQuality else f2

/-- The transaction-building part of `payment` (tx.go lines 95-121): parse
destination and amount, create the payment with `TransactionType = PAYMENT`,
attach paths and send-max when their strings are non-empty, and attach the
flag mask. -/
def buildPayment (lib : Lib) (p : PaymentFlags) : Proc Payment :=
  bindP (parseAccount lib p.Dest) fun destination =>
  bindP (parseAmount lib p.Amount) fun amount =>
  let pay0 : Payment := { base := { TransactionType := PAYMENT },
                          Destination := destination, Amount := amount }
  bindP (if p.Paths ≠ "" then
      bindP (parsePaths lib p.Paths) fun ps => pureP { pay0 with Paths := some ps }
    else pureP pay0) fun pay1 =>
  bindP (if p.Sendmax ≠ "" then
      bindP (parseAmount lib p.Sendmax) fun sm => pureP { pay1 with SendMax := some sm }
    else pureP pay1) fun pay2 =>
  pureP { pay2 with base := { pay2.base with Flags := some (flagsMask p) } }

/-- Build then sign at key-derivation index `i`. `payment` (tx.go line 123)
invokes this with `i = 0`. -/
def signedAtIndex (lib : Lib) (key : RootKey) (g : GlobalFlags)
    (p : PaymentFlags) (i : Int) : Proc Payment :=
  bindP (buildPayment lib p) fun pay =>
  sign lib key g pay i

/-- Uppercase hex digit for a value below 16 (Go `%X`). -/
def hexDigitU (n : Nat) : Char :=
  if n < 10 then Char.ofNat (48 + n) else Char.ofNat (55 + n)

/-- One byte as two uppercase hex digits. -/
def byteHexU (b : Nat) : String :=
  String.mk [hexDigitU (b / 16 % 16), hexDigitU (b % 16)]

/-- Go `fmt.Printf("%X", bytes)`: uppercase hex of a byte slice. -/
def hexUpper (bs : List Nat) : String := String.join (bs.map byteHexU)

/-- The output/submission part of `payment` (tx.go lines 124-144): compute the
hash and raw encoding, then emit hash/raw text, JSON and/or raw binary
according to the global output flags, and optionally submit. -/
def emitTx (lib : Lib) (g : GlobalFlags) (pay : Payment) : Proc Unit :=
  bindP (checkErr (lib.raw pay)) fun hr =>
  bindP (if ¬ g.Json ∧ ¬ g.Binary then
      printfP ("Hash: " ++ hexUpper hr.1 ++ "\nRaw: " ++ hexUpper hr.2 ++ "\n")
    else pureP ()) fun _ =>
  bindP (if g.Json ∨ ¬ g.Binary then
      bindP (checkErr (lib.jsonMarshal pay)) fun out => println out
    else pureP ()) fun _ =>
  bindP (if g.Binary then writeStdout hr.2 else pureP ()) fun _ =>
  if g.Submit then submitTx lib pay else pureP ()

/-- `payment` (tx.go lines 89-145): validate required fields, build the
payment, sign it at key-derivation index 0 (the literal argument at
tx.go line 123), and emit/submit. The process-global `key` set by `common` is
passed explicitly; the guard makes `key = none` an error, so `getD` never
falls back. -/
def paymentCmd (lib : Lib) (key : Option RootKey) (g : GlobalFlags)
    (p : PaymentFlags) : Proc Unit :=
  if p.Dest = "" ∨ p.Amount = "" ∨ key = none then
    bindP (println "Destination, amount, and seed are required") fun _ => exitProc 1
  else
    bindP (signedAtIndex lib (key.getD 0) g p 0) fun signed =>
    emitTx lib g signed

/-- `common` (tx.go lines 147-158), the app's Before hook: reject an empty
seed or a zero sequence by printing the app help and exiting 1, otherwise
derive the root key from the seed. -/
def common (lib : Lib) (g : GlobalFlags) : Proc RootKey :=
  if g.Seed = "" then
    bindP (printfP lib.appHelp) fun _ => exitProc 1
  else if g.Sequence = 0 then
    bindP (printfP lib.appHelp) fun _ => exitProc 1
  else
    parseSeed lib g.Seed

/-- One invocation of the app running the `payment` command: the cli library
runs the Before hook `common`, then the command action `payment` with the
derived key. -/
def runTx (lib : Lib) (g : GlobalFlags) (p : PaymentFlags) : Proc Unit :=
  bindP (common lib g) fun key =>
  paymentCmd lib (some key) g p

/-- Modelled from the spec: the `payment` command as the specification
describes it, identical to `paymentCmd` except that the key-derivation index
passed to the signing step is the transaction sequence number from the
`sequence` global flag instead of the literal 0. -/
def paymentCmdSeqIndexed (lib : Lib) (key : Option RootKey) (g : GlobalFlags)
    (p : PaymentFlags) : Proc Unit :=
  if p.Dest = "" ∨ p.Amount = "" ∨ key = none then
    bindP (println "Destination, amount, and seed are required") fun _ => exitProc 1
  else
    bindP (signedAtIndex lib (key.getD 0) g p g.Sequence) fun signed =>
    emitTx lib g signed

/-- A concrete instantiation of the external library used for witnesses and
counterexamples: every call succeeds, derived values encode their inputs so
that the derivation index is observable, and the raw encoding exposes the
envelope's account. -/
def testLib : Lib :=
  { newRippleHashCheck := fun s => Except.ok (s.toList.map Char.toNat)
    generateRootDeterministicKey := fun _ => Except.ok 1
    generateAccountKey := fun key i => Except.ok (100 + key + i.toNat)
    generateAccountId := fun key i => Except.ok (200 + key + i.toNat)
    publicAccountKey := fun priv => Except.ok (300 + priv)
    newAccountFromAddress := fun _ => Except.ok 7
    newAmount := fun _ => Except.ok 8
    newPath := fun _ => Except.ok 9
    newNativeValue := fun i => Except.ok i.toNat
    signTx := fun _ _ => Except.ok [1]
    raw := fun tx => Except.ok ([2], [tx.base.Account])
    jsonMarshal := fun tx => Except.ok (toString tx.base.Account)
    newRemote := fun _ => Except.ok 0
    submit := fun _ _ => Except.ok { engineResult := "tesSUCCESS",
                                     engineResultMessage := "The transaction was applied." }
    appHelp := "NAME: tx - create a Ripple transaction. USAGE: tx [global options] command [command options]" }

/-- Global flags for witnesses: valid seed and sequence, default output mode. -/
def gPlain : GlobalFlags :=
  { Seed := "shHM53KPZ87Gwdqarm1bAmPeXg8Tn", Fee := 10, Sequence := 5,
    Lastledger := 0, Submit := false, Binary := false, Json := false }

/-- Global flags for the binary-output witnesses: `--binary` only. -/
def gBinary : GlobalFlags := { gPlain with Binary := true }

/-- Global flags for the json-and-binary witness: `--json --binary`. -/
def gJsonBinary : GlobalFlags := { gPlain with Binary := true, Json := true }

/-- Payment flags for witnesses: destination and amount set, all else default. -/
def pPlain : PaymentFlags :=
  { defaultPaymentFlags with Dest := "rrrrrrrrrrrrrrrrrrrrrhoLvTp", Amount := "1000000" }

/-- Decomposition of a successful `bindP`: both stages succeeded and the
output is the concatenation. -/
theorem bindP_eq_ok {α β : Type} (x : Proc α) (f : α → Proc β) (o : List OutItem) (b : β) :
    bindP x f = (o, Except.ok b) ↔
      ∃ a o1 o2, x = (o1, Except.ok a) ∧ f a = (o2, Except.ok b) ∧ o = o1 ++ o2 := by
  obtain ⟨o1, r⟩ := x
  cases r with
  | error c => simp [bindP]
  | ok a =>
    constructor
    · intro h
      have h2 : (o1 ++ (f a).1, (f a).2) = (o, Except.ok b) := h
      rw [Prod.mk.injEq] at h2
      exact ⟨a, o1, (f a).1, rfl, by rw [← h2.2], h2.1.symm⟩
    · rintro ⟨a2, o3, o2, hx, hf, ho⟩
      rw [Prod.mk.injEq] at hx
      obtain ⟨ho1, ha⟩ := hx
      cases Except.ok.inj ha
      subst ho1 ho
      show (o1 ++ (f a).1, (f a).2) = _
      rw [hf]

/-- A successful `checkErr` means the underlying call succeeded and nothing
was printed. -/
theorem checkErr_eq_ok {α : Type} (e : Except String α) (o : List OutItem) (a : α) :
    checkErr e = (o, Except.ok a) ↔ e = Except.ok a ∧ o = [] := by
  cases e with
  | error s => simp [checkErr]
  | ok a2 =>
    simp only [checkErr, Prod.mk.injEq, Except.ok.injEq]
    constructor
    · rintro ⟨h1, h2⟩; exact ⟨h2, h1.symm⟩
    · rintro ⟨h1, h2⟩; exact ⟨h2.symm, h1⟩

/-- `pureP` succeeds with its value and no output. -/
theorem pureP_eq_ok {α : Type} (a b : α) (o : List OutItem) :
    pureP a = (o, Except.ok b) ↔ o = [] ∧ b = a := by
  simp only [pureP, Prod.mk.injEq, Except.ok.injEq]
  constructor
  · rintro ⟨h1, h2⟩; exact ⟨h1.symm, h2.symm⟩
  · rintro ⟨h1, h2⟩; exact ⟨h1.symm, h2.symm⟩

/-- `Nat.toDigitsCore` never shortens its accumulator. -/
theorem toDigitsCore_len_le (b : Nat) :
    ∀ (f n : Nat) (ds : List Char), ds.length ≤ (Nat.toDigitsCore b f n ds).length := by
  intro f
  induction f with
  | zero => intro n ds; simp [Nat.toDigitsCore]
  | succ f ih =>
    intro n ds
    simp only [Nat.toDigitsCore]
    by_cases h : n / b = 0
    · simp [h]
    · rw [if_neg h]
      calc ds.length ≤ (Nat.digitChar (n % b) :: ds).length := by simp
        _ ≤ _ := ih (n / b) (Nat.digitChar (n % b) :: ds)

/-- The digit list of a natural number is never empty. -/
theorem toDigits_ne_nil (b n : Nat) : Nat.toDigits b n ≠ [] := by
  have h : 1 ≤ (Nat.toDigits b n).length := by
    simp only [Nat.toDigits, Nat.toDigitsCore]
    by_cases h : n / b = 0
    · simp [h]
    · rw [if_neg h]
      calc 1 = [Nat.digitChar (n % b)].length := rfl
        _ ≤ _ := toDigitsCore_len_le b n (n / b) [Nat.digitChar (n % b)]
  intro hc
  rw [hc] at h
  simp at h

/-- The decimal representation of a natural number is a non-empty string. -/
theorem natRepr_ne_empty (n : Nat) : Nat.repr n ≠ "" := by
  intro h
  have hd : (Nat.repr n).data = ("" : String).data := by rw [h]
  simp only [Nat.repr, List.asString] at hd
  exact toDigits_ne_nil 10 n hd

/-- The decimal representation of an integer is a non-empty string, so the
fee-override branch in `sign` is always taken. -/
theorem globalStringFee_ne_empty (g : GlobalFlags) : globalStringFee g ≠ "" := by
  unfold globalStringFee
  cases hf : g.Fee with
  | ofNat m =>
    show toString (Int.ofNat m) ≠ ""
    simpa [toString, Int.ofNat] using natRepr_ne_empty m
  | negSucc m =>
    show toString (Int.negSucc m) ≠ ""
    intro h
    have hd : (toString (Int.negSucc m)).data = ("" : String).data := by rw [h]
    simp [toString, String.append] at hd

/-- A successful path-set parse prints nothing. -/
theorem parsePathsAux_ok (lib : Lib) :
    ∀ (l : List String) (o : List OutItem) (ps : List PathVal),
      parsePathsAux lib l = (o, Except.ok ps) → o = [] := by
  intro l
  induction l with
  | nil =>
    intro o ps h
    exact ((pureP_eq_ok _ _ _).mp h).1
  | cons s rest ih =>
    intro o ps h
    obtain ⟨path, o1, o2, h1, h2, ho⟩ := (bindP_eq_ok _ _ _ _).mp h
    obtain ⟨ps2, o3, o4, h3, h4, ho2⟩ := (bindP_eq_ok _ _ _ _).mp h2
    have e1 := ((checkErr_eq_ok _ _ _).mp h1).2
    have e3 := ih o3 ps2 h3
    have e4 := ((pureP_eq_ok _ _ _).mp h4).1
    subst ho ho2 e1 e3 e4
    rfl

/-- A successful `parsePaths` prints nothing. -/
theorem parsePaths_ok (lib : Lib) (s : String) (o : List OutItem) (ps : List PathVal)
    (h : parsePaths lib s = (o, Except.ok ps)) : o = [] :=
  parsePathsAux_ok lib (s.splitOn ",") o ps h

/-- Fieldwise characterization of a successful `sign`: which library calls
succeeded and what every envelope field of the result is. -/
theorem sign_fields (lib : Lib) (k : RootKey) (g : GlobalFlags) (tx0 : Payment) (i : Int)
    (o : List OutItem) (tx : Payment) (h : sign lib k g tx0 i = (o, Except.ok tx)) :
    o = [] ∧ ∃ priv id pub fee sig,
      lib.generateAccountKey k i = Except.ok priv ∧
      lib.generateAccountId k i = Except.ok id ∧
      lib.publicAccountKey priv = Except.ok pub ∧
      lib.newNativeValue g.Fee = Except.ok fee ∧
      tx.base.Account = id ∧
      tx.base.Sequence = toUint32 g.Sequence ∧
      tx.base.Fee = fee ∧
      tx.base.SigningPubKey = some pub ∧
      tx.base.TxnSignature = some sig ∧
      tx.base.TransactionType = tx0.base.TransactionType ∧
      tx.base.LastLedgerSequence =
        (if 0 < g.Lastledger then some (toUint32 g.Lastledger)
         else tx0.base.LastLedgerSequence) ∧
      tx.base.Flags = (if tx0.base.Flags = none then some 0 else tx0.base.Flags) ∧
      tx.Destination = tx0.Destination ∧
      tx.Amount = tx0.Amount ∧
      tx.SendMax = tx0.SendMax ∧
      tx.Paths = tx0.Paths := by
  obtain ⟨priv, o1, o2, h1, h2, ho⟩ := (bindP_eq_ok _ _ _ _).mp h
  obtain ⟨hpriv, ho1⟩ := (checkErr_eq_ok _ _ _).mp h1
  obtain ⟨id, o3, o4, h3, h4, ho2⟩ := (bindP_eq_ok _ _ _ _).mp h2
  obtain ⟨hid, ho3⟩ := (checkErr_eq_ok _ _ _).mp h3
  obtain ⟨pub, o5, o6, h5, h6, ho4⟩ := (bindP_eq_ok _ _ _ _).mp h4
  obtain ⟨hpub, ho5⟩ := (checkErr_eq_ok _ _ _).mp h5
  obtain ⟨base5, o7, o8, h7, h8, ho6⟩ := (bindP_eq_ok _ _ _ _).mp h6
  rw [if_pos (globalStringFee_ne_empty g)] at h7
  obtain ⟨fee, o9, o10, h9, h10, ho7⟩ := (bindP_eq_ok _ _ _ _).mp h7
  obtain ⟨hfee, ho9⟩ := (checkErr_eq_ok _ _ _).mp h9
  obtain ⟨ho10, hb5⟩ := (pureP_eq_ok _ _ _).mp h10
  obtain ⟨sig, o11, o12, h11, h12, ho8⟩ := (bindP_eq_ok _ _ _ _).mp h8
  obtain ⟨hsig, ho11⟩ := (checkErr_eq_ok _ _ _).mp h11
  obtain ⟨ho12, htx⟩ := (pureP_eq_ok _ _ _).mp h12
  subst ho ho1 ho2 ho3 ho4 ho5 ho6 ho7 ho8 ho9 ho10 ho11 ho12
  subst hb5 htx
  refine ⟨rfl, priv, id, pub, fee, sig, hpriv, hid, hpub, hfee, ?_⟩
  by_cases hll : 0 < g.Lastledger <;> by_cases hfl : tx0.base.Flags = none <;>
    simp [hll, hfl]

/-- Fieldwise characterization of a successful `buildPayment`: which parses
succeeded and what every field of the constructed payment is. -/
theorem buildPayment_fields (lib : Lib) (p : PaymentFlags) (o : List OutItem) (pay : Payment)
    (h : buildPayment lib p = (o, Except.ok pay)) :
    o = [] ∧ ∃ d a,
      lib.newAccountFromAddress p.Dest = Except.ok d ∧
      lib.newAmount p.Amount = Except.ok a ∧
      pay.Destination = d ∧
      pay.Amount = a ∧
      pay.base.TransactionType = PAYMENT ∧
      pay.base.Flags = some (flagsMask p) ∧
      pay.base.Sequence = 0 ∧
      pay.base.Account = 0 ∧
      pay.base.Fee = 0 ∧
      pay.base.SigningPubKey = none ∧
      pay.base.TxnSignature = none ∧
      pay.base.LastLedgerSequence = none ∧
      pay.DestinationTag = none ∧
      pay.InvoiceID = none ∧
      (pay.Paths = none ↔ p.Paths = "") ∧
      (pay.SendMax = none ↔ p.Sendmax = "") := by
  obtain ⟨d, o1, o2, h1, h2, ho⟩ := (bindP_eq_ok _ _ _ _).mp h
  obtain ⟨hd, ho1⟩ := (checkErr_eq_ok _ _ _).mp h1
  obtain ⟨a, o3, o4, h3, h4, ho2⟩ := (bindP_eq_ok _ _ _ _).mp h2
  obtain ⟨ha, ho3⟩ := (checkErr_eq_ok _ _ _).mp h3
  obtain ⟨pay1, o5, o6, h5, h6, ho4⟩ := (bindP_eq_ok _ _ _ _).mp h4
  obtain ⟨pay2, o7, o8, h7, h8, ho6⟩ := (bindP_eq_ok _ _ _ _).mp h6
  obtain ⟨ho8, hpay⟩ := (pureP_eq_ok _ _ _).mp h8
  have hpay1 : ∃ psOpt : Option (List PathVal),
      pay1 = { base := { TransactionType := PAYMENT }, Destination := d, Amount := a,
               Paths := psOpt } ∧ (psOpt = none ↔ p.Paths = "") ∧ o5 = [] := by
    by_cases hps : p.Paths = ""
    · rw [if_neg (not_not_intro hps)] at h5
      obtain ⟨ho5, hp1⟩ := (pureP_eq_ok _ _ _).mp h5
      exact ⟨none, by rw [hp1], by simp [hps], ho5⟩
    · rw [if_pos hps] at h5
      obtain ⟨ps, oA, oB, hA, hB, hoAB⟩ := (bindP_eq_ok _ _ _ _).mp h5
      have hoA := parsePaths_ok lib p.Paths oA ps hA
      obtain ⟨hoB, hp1⟩ := (pureP_eq_ok _ _ _).mp hB
      exact ⟨some ps, by rw [hp1], by simp [hps], by simp [hoAB, hoA, hoB]⟩
  obtain ⟨psOpt, hpay1, hpsOpt, ho5⟩ := hpay1
  subst hpay1
  have hpay2 : ∃ smOpt : Option AmountVal,
      pay2 = { base := { TransactionType := PAYMENT }, Destination := d, Amount := a,
               Paths := psOpt, SendMax := smOpt } ∧ (smOpt = none ↔ p.Sendmax = "") ∧
               o7 = [] := by
    by_cases hsm : p.Sendmax = ""
    · rw [if_neg (not_not_intro hsm)] at h7
      obtain ⟨ho7, hp2⟩ := (pureP_eq_ok _ _ _).mp h7
      exact ⟨none, by rw [hp2], by simp [hsm], ho7⟩
    · rw [if_pos hsm] at h7
      obtain ⟨sm, oA, oB, hA, hB, hoAB⟩ := (bindP_eq_ok _ _ _ _).mp h7
      obtain ⟨hsmOk, hoA⟩ := (checkErr_eq_ok _ _ _).mp hA
      obtain ⟨hoB, hp2⟩ := (pureP_eq_ok _ _ _).mp hB
      exact ⟨some sm, by rw [hp2], by simp [hsm], by simp [hoAB, hoA, hoB]⟩
  obtain ⟨smOpt, hpay2, hsmOpt, ho7⟩ := hpay2
  subst hpay2 hpay
  subst ho ho1 ho2 ho3 ho4 ho6 ho5 ho7 ho8
  exact ⟨rfl, d, a, hd, ha, rfl, rfl, rfl, rfl, rfl, rfl, rfl, rfl, rfl, rfl, rfl, rfl,
         hpsOpt, hsmOpt⟩

/-- Fieldwise characterization of a successful build-then-sign at derivation
index `i` (the composition invoked by the payment command with `i = 0`). -/
theorem signedAtIndex_fields (lib : Lib) (k : RootKey) (g : GlobalFlags) (p : PaymentFlags)
    (i : Int) (o : List OutItem) (tx : Payment)
    (h : signedAtIndex lib k g p i = (o, Except.ok tx)) :
    o = [] ∧ ∃ d a id priv pub fee sig,
      lib.newAccountFromAddress p.Dest = Except.ok d ∧
      lib.newAmount p.Amount = Except.ok a ∧
      lib.generateAccountKey k i = Except.ok priv ∧
      lib.generateAccountId k i = Except.ok id ∧
      lib.publicAccountKey priv = Except.ok pub ∧
      lib.newNativeValue g.Fee = Except.ok fee ∧
      tx.Destination = d ∧
      tx.Amount = a ∧
      tx.base.Account = id ∧
      tx.base.Sequence = toUint32 g.Sequence ∧
      tx.base.Fee = fee ∧
      tx.base.SigningPubKey = some pub ∧
      tx.base.TxnSignature = some sig ∧
      tx.base.TransactionType = PAYMENT ∧
      tx.base.Flags = some (flagsMask p) ∧
      tx.base.LastLedgerSequence =
        (if 0 < g.Lastledger then some (toUint32 g.Lastledger) else none) ∧
      (tx.Paths = none ↔ p.Paths = "") ∧
      (tx.SendMax = none ↔ p.Sendmax = "") := by
  obtain ⟨pay, o1, o2, h1, h2, ho⟩ := (bindP_eq_ok _ _ _ _).mp h
  obtain ⟨ho1, d, a, hd, ha, hDest, hAmt, hTT, hFlags, _, _, _, _, _, hLLS, _, _,
          hPaths, hSendMax⟩ := buildPayment_fields lib p o1 pay h1
  obtain ⟨ho2, priv, id, pub, fee, sig, hpriv, hid, hpub, hfee, hAcc, hSeq, hFee,
          hSPK, hTxn, hTT2, hLLS2, hFlags2, hDest2, hAmt2, hSendMax2, hPaths2⟩ :=
    sign_fields lib k g pay i o2 tx h2
  subst ho ho1 ho2
  refine ⟨rfl, d, a, id, priv, pub, fee, sig, hd, ha, hpriv, hid, hpub, hfee,
          ?_, ?_, hAcc, hSeq, hFee, hSPK, ?_, ?_, ?_, ?_, ?_, ?_⟩
  · rw [hDest2, hDest]
  · rw [hAmt2, hAmt]
  · exact hTxn
  · rw [hTT2, hTT]
  · rw [hFlags2, hFlags]
    simp
  · rw [hLLS2, hLLS]
  · rw [hPaths2]; exact hPaths
  · rw [hSendMax2]; exact hSendMax

/-- A successful `common` prints nothing, implies the guards passed, and
returns the key derived from the seed. -/
theorem common_ok (lib : Lib) (g : GlobalFlags) (o : List OutItem) (k : RootKey)
    (h : common lib g = (o, Except.ok k)) :
    o = [] ∧ g.Seed ≠ "" ∧ g.Sequence ≠ 0 ∧ ∃ payload,
      lib.newRippleHashCheck g.Seed = Except.ok payload ∧
      lib.generateRootDeterministicKey payload = Except.ok k := by
  by_cases hs : g.Seed = ""
  · unfold common at h
    rw [if_pos hs] at h
    exact absurd h (by simp [bindP, printfP, exitProc])
  by_cases hq : g.Sequence = 0
  · unfold common at h
    rw [if_neg hs, if_pos hq] at h
    exact absurd h (by simp [bindP, printfP, exitProc])
  unfold common at h
  rw [if_neg hs, if_neg hq] at h
  obtain ⟨payload, o1, o2, h1, h2, ho⟩ := (bindP_eq_ok _ _ _ _).mp h
  obtain ⟨hpl, ho1⟩ := (checkErr_eq_ok _ _ _).mp h1
  obtain ⟨k2, o3, o4, h3, h4, ho2⟩ := (bindP_eq_ok _ _ _ _).mp h2
  obtain ⟨hk, ho3⟩ := (checkErr_eq_ok _ _ _).mp h3
  obtain ⟨ho4, hk2⟩ := (pureP_eq_ok _ _ _).mp h4
  subst ho ho1 ho2 ho3 ho4 hk2
  exact ⟨rfl, hs, hq, payload, hpl, hk⟩

/-- The concrete signed transaction produced by `testLib` on `gPlain`/`pPlain`
at key-derivation index 0 with root key 1. -/
def signedPlain : Payment :=
  { base := { TransactionType := 0, Flags := some 0, Account := 201, Sequence := 5,
              Fee := 10, SigningPubKey := some 401, TxnSignature := some [1],
              LastLedgerSequence := none },
    Destination := 7, Amount := 8 }

/-- Evaluation of the build-and-sign pipeline on the concrete witness data. -/
theorem signedPlain_eq :
    signedAtIndex testLib 1 gPlain pPlain 0 = ([], Except.ok signedPlain) := rfl

/-- C1 (as stated by the spec, refuted): it is not the case that the payment
command always behaves as if the key-derivation index passed to the
account-key and account-id generation calls were the transaction sequence
number from the sequence global flag; with the sequence flag at 5 the derived
account differs from the one the spec's description would produce. -/
theorem C1_seq_index_counterexample :
    ¬ ∀ (lib : Lib) (key : Option RootKey) (g : GlobalFlags) (p : PaymentFlags),
        paymentCmd lib key g p = paymentCmdSeqIndexed lib key g p := by
  intro hall
  have h1 : paymentCmd testLib (some 1) gBinary pPlain =
      ([OutItem.bin [201]], Except.ok ()) := rfl
  have h2 : paymentCmdSeqIndexed testLib (some 1) gBinary pPlain =
      ([OutItem.bin [206]], Except.ok ()) := rfl
  have heq := hall testLib (some 1) gBinary pPlain
  rw [h1, h2] at heq
  simp at heq

/-- C1 (amended): for every run of the payment command's build-and-sign
pipeline, the key-derivation index passed to the account-key and account-id
generation calls is the constant 0 (the literal argument at tx.go line 123),
not the sequence flag; the envelope's Sequence field is the one that carries
the sequence flag value (reduced to uint32). -/
theorem C1_key_derivation_index_zero (lib : Lib) (k : RootKey) (g : GlobalFlags)
    (p : PaymentFlags) (o : List OutItem) (tx : Payment)
    (h : signedAtIndex lib k g p 0 = (o, Except.ok tx)) :
    (∃ priv, lib.generateAccountKey k 0 = Except.ok priv) ∧
    (∃ id, lib.generateAccountId k 0 = Except.ok id ∧ tx.base.Account = id) ∧
    tx.base.Sequence = toUint32 g.Sequence := by
  obtain ⟨-, d, a, id, priv, pub, fee, sig, hd, ha, hpriv, hid, hpub, hfee,
          -, -, hAcc, hSeq, -, -, -, -, -, -, -, -⟩ :=
    signedAtIndex_fields lib k g p 0 o tx h
  exact ⟨⟨priv, hpriv⟩, ⟨id, hid, hAcc⟩, hSeq⟩

/-- C1 witness: the amended claim evaluated on the concrete witness data. -/
theorem C1_key_derivation_index_zero_witness :
    (∃ priv, testLib.generateAccountKey 1 0 = Except.ok priv) ∧
    (∃ id, testLib.generateAccountId 1 0 = Except.ok id ∧
           signedPlain.base.Account = id) ∧
    signedPlain.base.Sequence = toUint32 gPlain.Sequence :=
  C1_key_derivation_index_zero testLib 1 gPlain pPlain [] signedPlain signedPlain_eq

/-- C2: for every successfully signed payment, the envelope's Fee field is the
native value built from the fee global flag, and the default registered for
that flag is 10. -/
theorem C2_fee_from_flag :
    defaultGlobalFlags.Fee = 10 ∧
    ∀ (lib : Lib) (k : RootKey) (g : GlobalFlags) (p : PaymentFlags)
      (o : List OutItem) (tx : Payment),
      signedAtIndex lib k g p 0 = (o, Except.ok tx) →
      ∃ v, lib.newNativeValue g.Fee = Except.ok v ∧ tx.base.Fee = v := by
  refine ⟨rfl, ?_⟩
  intro lib k g p o tx h
  obtain ⟨-, d, a, id, priv, pub, fee, sig, hd, ha, hpriv, hid, hpub, hfee,
          -, -, -, -, hFee, -, -, -, -, -, -, -⟩ :=
    signedAtIndex_fields lib k g p 0 o tx h
  exact ⟨fee, hfee, hFee⟩

/-- C2 witness: the fee property evaluated on the concrete witness data. -/
theorem C2_fee_from_flag_witness :
    ∃ v, testLib.newNativeValue gPlain.Fee = Except.ok v ∧ signedPlain.base.Fee = v :=
  C2_fee_from_flag.2 testLib 1 gPlain pPlain [] signedPlain signedPlain_eq

/-- C3: whenever the connection is established and the submission call returns
an engine result (accepted or rejected alike), the process prints the result
code and message and exits with status 0. -/
theorem C3_submit_exit_zero (lib : Lib) (tx : Payment) (r : Remote) (res : SubmitResult)
    (h1 : lib.newRemote rippleEndpoint = Except.ok r)
    (h2 : lib.submit r tx = Except.ok res) :
    submitTx lib tx =
      ([OutItem.text (res.engineResult ++ ": " ++ res.engineResultMessage ++ "\n")],
       Except.error 0) := by
  unfold submitTx
  rw [h1]
  simp only [checkErr, bindP, List.nil_append]
  rw [h2]
  simp [checkErr, bindP, printfP, exitProc]

/-- C3 witness: submission of the default payment through `testLib`. -/
theorem C3_submit_exit_zero_witness :
    submitTx testLib {} =
      ([OutItem.text ("tesSUCCESS" ++ ": " ++ "The transaction was applied." ++ "\n")],
       Except.error 0) :=
  C3_submit_exit_zero testLib {} 0
    { engineResult := "tesSUCCESS", engineResultMessage := "The transaction was applied." }
    rfl rfl

/-- The sequential flag accumulation of tx.go lines 112-121 equals the plain
bitwise OR of the selected individual flag bits, in either association order. -/
theorem flagsMask_or (p : PaymentFlags) :
    flagsMask p =
      ((if p.Nodirect then TxNoDirectRipple else 0) |||
       (if p.Partial then TxPartialPayment else 0) |||
       (if p.Limit then TxLimitQuality else 0)) ∧
    flagsMask p =
      ((if p.Limit then TxLimitQuality else 0) |||
       (if p.Partial then TxPartialPayment else 0) |||
       (if p.Nodirect then TxNoDirectRipple else 0)) := by
  constructor <;>
    cases hnd : p.Nodirect <;> cases hpp : p.Partial <;> cases hll : p.Limit <;>
      simp [flagsMask, hnd, hpp, hll, TxNoDirectRipple, TxPartialPayment,
            TxLimitQuality]

/-- C4: the Flags mask attached to the built payment is the bitwise OR of the
individual bit values of exactly the selected flags (zero for none), and the
order of combination does not affect the result. -/
theorem C4_flags_bitwise_or (lib : Lib) (p : PaymentFlags) (o : List OutItem) (pay : Payment)
    (h : buildPayment lib p = (o, Except.ok pay)) :
    pay.base.Flags = some
      ((if p.Nodirect then TxNoDirectRipple else 0) |||
       (if p.Partial then TxPartialPayment else 0) |||
       (if p.Limit then TxLimitQuality else 0)) ∧
    pay.base.Flags = some
      ((if p.Limit then TxLimitQuality else 0) |||
       (if p.Partial then TxPartialPayment else 0) |||
       (if p.Nodirect then TxNoDirectRipple else 0)) := by
  obtain ⟨-, d, a, -, -, -, -, -, hFlags, -, -, -, -, -, -, -, -, -, -⟩ :=
    buildPayment_fields lib p o pay h
  constructor
  · rw [hFlags, (flagsMask_or p).1]
  · rw [hFlags, (flagsMask_or p).2]

/-- Payment flags selecting the no-direct and limit-quality bits. -/
def pBoth : PaymentFlags := { pPlain with Nodirect := true, Limit := true }

/-- The payment built by `testLib` from `pBoth`. -/
def payBoth : Payment :=
  { base := { TransactionType := 0, Flags := some 327680 },
    Destination := 7, Amount := 8 }

/-- C4 witness: the flag-mask property evaluated with no-direct and
limit-quality selected. -/
theorem C4_flags_bitwise_or_witness :
    payBoth.base.Flags = some
      ((if pBoth.Nodirect then TxNoDirectRipple else 0) |||
       (if pBoth.Partial then TxPartialPayment else 0) |||
       (if pBoth.Limit then TxLimitQuality else 0)) ∧
    payBoth.base.Flags = some
      ((if pBoth.Limit then TxLimitQuality else 0) |||
       (if pBoth.Partial then TxPartialPayment else 0) |||
       (if pBoth.Nodirect then TxNoDirectRipple else 0)) :=
  C4_flags_bitwise_or testLib pBoth [] payBoth rfl

/-- Closed form of the output stage when only the binary global flag is set:
exactly the raw bytes are written. -/
theorem emitTx_binary (lib : Lib) (g : GlobalFlags) (pay : Payment)
    (hr : List Nat × List Nat)
    (hB : g.Binary = true) (hJ : g.Json = false) (hS : g.Submit = false)
    (hraw : lib.raw pay = Except.ok hr) :
    emitTx lib g pay = ([OutItem.bin hr.2], Except.ok ()) := by
  unfold emitTx
  rw [hraw, hB, hJ, hS]
  simp [checkErr, bindP, pureP, writeStdout]

/-- Closed form of the output stage when the json and binary global flags are
both set: the JSON line followed by the raw bytes. -/
theorem emitTx_json_binary (lib : Lib) (g : GlobalFlags) (pay : Payment)
    (hr : List Nat × List Nat) (js : String)
    (hB : g.Binary = true) (hJ : g.Json = true) (hS : g.Submit = false)
    (hraw : lib.raw pay = Except.ok hr) (hjs : lib.jsonMarshal pay = Except.ok js) :
    emitTx lib g pay =
      ([OutItem.text (js ++ "\n"), OutItem.bin hr.2], Except.ok ()) := by
  unfold emitTx
  rw [hraw, hjs, hB, hJ, hS]
  simp [checkErr, bindP, pureP, writeStdout, println]

/-- C5: with the binary flag set and the json and submit flags unset, a
successful run writes exactly the raw canonical bytes of the signed
transaction to standard output: no hash/raw text and no JSON. -/
theorem C5_binary_exact_raw (lib : Lib) (g : GlobalFlags) (p : PaymentFlags)
    (outs : List OutItem)
    (hB : g.Binary = true) (hJ : g.Json = false) (hS : g.Submit = false)
    (h : runTx lib g p = (outs, Except.ok ())) :
    ∃ k tx hash raw,
      common lib g = ([], Except.ok k) ∧
      signedAtIndex lib k g p 0 = ([], Except.ok tx) ∧
      lib.raw tx = Except.ok (hash, raw) ∧
      outs = [OutItem.bin raw] := by
  obtain ⟨k, o1, o2, h1, h2, ho⟩ := (bindP_eq_ok _ _ _ _).mp h
  obtain ⟨ho1, -, -, -⟩ := common_ok lib g o1 k h1
  subst ho1
  by_cases hg : p.Dest = "" ∨ p.Amount = "" ∨ (some k : Option RootKey) = none
  · exfalso
    unfold paymentCmd at h2
    rw [if_pos hg] at h2
    simp [bindP, println, exitProc] at h2
  unfold paymentCmd at h2
  rw [if_neg hg] at h2
  obtain ⟨tx, o3, o4, h3, h4, ho2⟩ := (bindP_eq_ok _ _ _ _).mp h2
  rw [Option.getD_some] at h3
  have ho3 := (signedAtIndex_fields lib k g p 0 o3 tx h3).1
  subst ho3
  cases hrw : lib.raw tx with
  | error e =>
    exfalso
    unfold emitTx at h4
    rw [hrw] at h4
    simp [checkErr, bindP] at h4
  | ok hr =>
    rw [emitTx_binary lib g tx hr hB hJ hS hrw] at h4
    rw [Prod.mk.injEq] at h4
    obtain ⟨ho6, -⟩ := h4
    refine ⟨k, tx, hr.1, hr.2, h1, h3, by rw [hrw], ?_⟩
    subst ho ho2
    rw [← ho6]

/-- C5 witness: a binary-only run of the whole pipeline on the witness data. -/
theorem C5_binary_exact_raw_witness :
    ∃ k tx hash raw,
      common testLib gBinary = ([], Except.ok k) ∧
      signedAtIndex testLib k gBinary pPlain 0 = ([], Except.ok tx) ∧
      testLib.raw tx = Except.ok (hash, raw) ∧
      [OutItem.bin [201]] = [OutItem.bin raw] :=
  C5_binary_exact_raw testLib gBinary pPlain [OutItem.bin [201]] rfl rfl rfl rfl

/-- C6: an empty seed or a zero sequence makes the run print the app usage
text and exit with status 1 (non-zero), before any payment logic runs. -/
theorem C6_usage_exit (lib : Lib) (g : GlobalFlags) (p : PaymentFlags)
    (h : g.Seed = "" ∨ g.Sequence = 0) :
    runTx lib g p = ([OutItem.text lib.appHelp], Except.error 1) ∧ (1 : Nat) ≠ 0 := by
  refine ⟨?_, by decide⟩
  unfold runTx common
  rcases h with hs | hq
  · rw [if_pos hs]
    rfl
  · by_cases hs : g.Seed = ""
    · rw [if_pos hs]
      rfl
    · rw [if_neg hs, if_pos hq]
      rfl

/-- Global flags with the mandatory seed left empty. -/
def gNoSeed : GlobalFlags := { gPlain with Seed := "" }

/-- C6 witness: the usage-exit property evaluated with an empty seed. -/
theorem C6_usage_exit_witness :
    runTx testLib gNoSeed pPlain = ([OutItem.text testLib.appHelp], Except.error 1) ∧
    (1 : Nat) ≠ 0 :=
  C6_usage_exit testLib gNoSeed pPlain (Or.inl rfl)

/-- C7: a payment run with an empty destination, an empty amount, or no
derived key prints the requirement message and exits with status 1, producing
no signed-transaction output, regardless of the other flags. -/
theorem C7_missing_required (lib : Lib) (key : Option RootKey) (g : GlobalFlags)
    (p : PaymentFlags) (h : p.Dest = "" ∨ p.Amount = "" ∨ key = none) :
    paymentCmd lib key g p =
      ([OutItem.text ("Destination, amount, and seed are required" ++ "\n")],
       Except.error 1) := by
  unfold paymentCmd
  rw [if_pos h]
  rfl

/-- Payment flags with the mandatory destination left empty. -/
def pNoDest : PaymentFlags := { pPlain with Dest := "" }

/-- C7 witness: the missing-required-field property with an empty destination. -/
theorem C7_missing_required_witness :
    paymentCmd testLib (some 1) gPlain pNoDest =
      ([OutItem.text ("Destination, amount, and seed are required" ++ "\n")],
       Except.error 1) :=
  C7_missing_required testLib (some 1) gPlain pNoDest (Or.inl rfl)

/-- C8: on every signed payment, Paths is set iff the paths string is
non-empty, SendMax is set iff the sendmax string is non-empty, and
LastLedgerSequence is set iff the lastledger flag is greater than 0. -/
theorem C8_optional_fields (lib : Lib) (k : RootKey) (g : GlobalFlags) (p : PaymentFlags)
    (o : List OutItem) (tx : Payment)
    (h : signedAtIndex lib k g p 0 = (o, Except.ok tx)) :
    (tx.Paths ≠ none ↔ p.Paths ≠ "") ∧
    (tx.SendMax ≠ none ↔ p.Sendmax ≠ "") ∧
    (tx.base.LastLedgerSequence ≠ none ↔ 0 < g.Lastledger) := by
  obtain ⟨-, d, a, id, priv, pub, fee, sig, -, -, -, -, -, -, -, -, -, -, -, -, -, -, -,
          hLLS, hPaths, hSendMax⟩ := signedAtIndex_fields lib k g p 0 o tx h
  refine ⟨not_congr hPaths, not_congr hSendMax, ?_⟩
  rw [hLLS]
  by_cases hll : 0 < g.Lastledger <;> simp [hll]

/-- C8 witness: the optional-field property evaluated on the witness data. -/
theorem C8_optional_fields_witness :
    (signedPlain.Paths ≠ none ↔ pPlain.Paths ≠ "") ∧
    (signedPlain.SendMax ≠ none ↔ pPlain.Sendmax ≠ "") ∧
    (signedPlain.base.LastLedgerSequence ≠ none ↔ 0 < gPlain.Lastledger) :=
  C8_optional_fields testLib 1 gPlain pPlain [] signedPlain signedPlain_eq

/-- C9: with both json and binary set (and submit unset), a successful run
writes the JSON line of the signed transaction followed by its raw bytes, in
that order. -/
theorem C9_json_then_binary (lib : Lib) (g : GlobalFlags) (p : PaymentFlags)
    (outs : List OutItem)
    (hB : g.Binary = true) (hJ : g.Json = true) (hS : g.Submit = false)
    (h : runTx lib g p = (outs, Except.ok ())) :
    ∃ k tx hash raw js,
      common lib g = ([], Except.ok k) ∧
      signedAtIndex lib k g p 0 = ([], Except.ok tx) ∧
      lib.raw tx = Except.ok (hash, raw) ∧
      lib.jsonMarshal tx = Except.ok js ∧
      outs = [OutItem.text (js ++ "\n"), OutItem.bin raw] := by
  obtain ⟨k, o1, o2, h1, h2, ho⟩ := (bindP_eq_ok _ _ _ _).mp h
  obtain ⟨ho1, -, -, -⟩ := common_ok lib g o1 k h1
  subst ho1
  by_cases hg : p.Dest = "" ∨ p.Amount = "" ∨ (some k : Option RootKey) = none
  · exfalso
    unfold paymentCmd at h2
    rw [if_pos hg] at h2
    simp [bindP, println, exitProc] at h2
  unfold paymentCmd at h2
  rw [if_neg hg] at h2
  obtain ⟨tx, o3, o4, h3, h4, ho2⟩ := (bindP_eq_ok _ _ _ _).mp h2
  rw [Option.getD_some] at h3
  have ho3 := (signedAtIndex_fields lib k g p 0 o3 tx h3).1
  subst ho3
  cases hrw : lib.raw tx with
  | error e =>
    exfalso
    unfold emitTx at h4
    rw [hrw] at h4
    simp [checkErr, bindP] at h4
  | ok hr =>
    cases hjs : lib.jsonMarshal tx with
    | error e =>
      exfalso
      unfold emitTx at h4
      rw [hrw, hjs, hB, hJ, hS] at h4
      simp [checkErr, bindP, pureP] at h4
    | ok js =>
      rw [emitTx_json_binary lib g tx hr js hB hJ hS hrw hjs] at h4
      rw [Prod.mk.injEq] at h4
      obtain ⟨ho6, -⟩ := h4
      refine ⟨k, tx, hr.1, hr.2, js, h1, h3, by rw [hrw], hjs, ?_⟩
      subst ho ho2
      rw [← ho6]

/-- C9 witness: a json-and-binary run of the whole pipeline on the witness
data. -/
theorem C9_json_then_binary_witness :
    ∃ k tx hash raw js,
      common testLib gJsonBinary = ([], Except.ok k) ∧
      signedAtIndex testLib k gJsonBinary pPlain 0 = ([], Except.ok tx) ∧
      testLib.raw tx = Except.ok (hash, raw) ∧
      testLib.jsonMarshal tx = Except.ok js ∧
      [OutItem.text "201\n", OutItem.bin [201]] =
        [OutItem.text (js ++ "\n"), OutItem.bin raw] :=
  C9_json_then_binary testLib gJsonBinary pPlain
    [OutItem.text "201\n", OutItem.bin [201]] rfl rfl rfl rfl

/-- C10: the tag and invoice payment flags have no effect: two runs identical
except for tag and invoice build and sign the identical payment transaction
and produce identical output and exit status. -/
theorem C10_tag_invoice_no_effect (lib : Lib) (key : Option RootKey) (g : GlobalFlags)
    (p : PaymentFlags) (k : RootKey) (t1 t2 : Int) (i1 i2 : String) :
    signedAtIndex lib k g { p with Tag := t1, Invoice := i1 } 0 =
      signedAtIndex lib k g { p with Tag := t2, Invoice := i2 } 0 ∧
    paymentCmd lib key g { p with Tag := t1, Invoice := i1 } =
      paymentCmd lib key g { p with Tag := t2, Invoice := i2 } ∧
    runTx lib g { p with Tag := t1, Invoice := i1 } =
      runTx lib g { p with Tag := t2, Invoice := i2 } :=
  ⟨rfl, rfl, rfl⟩
